import Mathlib

/-!
Shallow embedding of the resilient MCP client and stdio-HTTP bridge of the
`publisher` repository, together with proofs about the behaviour that the
specification claims.

Embedded code:
* `src/packages/server/dxt/malloy_bridge.py` (`ImprovedMalloyMCPBridge`):
  SSE / plain-JSON response parsing, id backfill, error envelopes, the
  per-line request loop.
* `src/examples/slack-bot/src/clients/enhanced_mcp_client.py`
  (`EnhancedMCPClient`): `_parse_response`, `_make_request`,
  `_make_request_with_retry`, `discover_tools`.
* `src/examples/slack-bot/bot.py` (`CircuitBreaker`).
* `src/examples/slack-bot/src/clients/simple_mcp_client.py`
  (`SimpleMCPClient.call_tool`).

Python `str` values on the wire are modelled as `List Char`; JSON values as
the inductive type `Json` (Python `None` is identified with `Json.null`).
The Python standard-library JSON decoder `json.loads` is not part of the
repository; functions that call it take an argument
`loads : List Char → Option Json` (`none` models `json.JSONDecodeError`).
-/

/-- JSON values, as produced by Python's `json.loads`: objects are
insertion-ordered association lists, numbers are modelled as integers
(all numbers appearing in the embedded code paths are integers). -/
inductive Json where
  | null
  | bool (b : Bool)
  | num (n : Int)
  | str (s : String)
  | arr (xs : List Json)
  | obj (kvs : List (String × Json))

/-- Python `d[k]` lookup on a dict (first matching key of the assoc list). -/
def dictGet (kvs : List (String × Json)) (k : String) : Option Json :=
  (kvs.find? (fun p => p.1 == k)).map (fun p => p.2)

/-- Python `d[k] = v` on a dict: replace the value in place if the key is
present, otherwise append the new entry (insertion order). -/
def dictSet (kvs : List (String × Json)) (k : String) (v : Json) :
    List (String × Json) :=
  match kvs with
  | [] => [(k, v)]
  | (k', v') :: rest =>
      if k' == k then (k, v) :: rest else (k', v') :: dictSet rest k v

/-- Python `j.get(k)` (`None` when `j` is not a dict or the key is absent). -/
def jsonGet (j : Json) (k : String) : Option Json :=
  match j with
  | Json.obj kvs => dictGet kvs k
  | _ => none

/-- Python `j.get(k, d)`. -/
def jsonGetD (j : Json) (k : String) (d : Json) : Json :=
  (jsonGet j k).getD d

/-- Characters stripped by Python's `str.strip()`. -/
def isPyWs (c : Char) : Bool :=
  c == ' ' || c == '\t' || c == '\n' || c == '\r' || c == '\x0b' || c == '\x0c'

/-- Python `s.strip()`: drop whitespace from both ends. -/
def pyStrip (l : List Char) : List Char :=
  ((l.dropWhile isPyWs).reverse.dropWhile isPyWs).reverse

/-- Python `s.split(sep)` for a one-character separator. -/
def pySplit (sep : Char) : List Char → List (List Char)
  | [] => [[]]
  | c :: rest =>
      match pySplit sep rest with
      | [] => [[]]
      | h :: t => if c = sep then [] :: h :: t else (c :: h) :: t

/-- The JSON-RPC error envelope built throughout `malloy_bridge.py`:
`「jsonrpc: "2.0", error: 「code, message」, id」` (messages are modelled by
their fixed prefix; the code never branches on them). -/
def mkErr (code : Int) (msg : String) (rid : Json) : Json :=
  Json.obj [("jsonrpc", Json.str "2.0"),
            ("error", Json.obj [("code", Json.num code),
                                ("message", Json.str msg)]),
            ("id", rid)]

/-- Reads the `code` of the `error` member of an envelope. -/
def errCode (j : Json) : Option Json :=
  (jsonGet j "error").bind (fun e => jsonGet e "code")

/-- From `malloy_bridge.py` lines 81-82 and 167-168: if the parsed response dict
has no `id`, or its `id` is `None`, set it to the request's id. -/
def ensureIdObj (rid : Json) (kvs : List (String × Json)) :
    List (String × Json) :=
  match dictGet kvs "id" with
  | none => dictSet kvs "id" rid
  | some Json.null => dictSet kvs "id" rid
  | some _ => kvs

/-- Embeds `ImprovedMalloyMCPBridge.parse_sse_response` (lines 41-118), applied to
the full decoded body text.  Scans the stripped body's lines for the first
one prefixed `data: `; if there is none (or it is empty) falls back to the
whole stripped body; decodes it and backfills the id.  A decode failure, an
empty body, or a non-dict payload (whose id check raises and is caught by
the outer handler) produce a `-32603` error envelope. -/
def parseSseResponse (loads : List Char → Option Json) (body : List Char)
    (rid : Json) : Json :=
  let lines := pySplit '\n' (pyStrip body)
  let d0 := ((lines.find? (fun l => "data: ".data.isPrefixOf l)).map
              (fun l => l.drop 6)).getD []
  let dl := if d0.isEmpty then pyStrip body else d0
  if dl.isEmpty then mkErr (-32603) "No data found in response" rid
  else
    match loads dl with
    | none => mkErr (-32603) "Failed to parse response" rid
    | some (Json.obj kvs) => Json.obj (ensureIdObj rid kvs)
    | some _ => mkErr (-32603) "SSE parsing error" rid

/-- The plain-JSON branch of `ImprovedMalloyMCPBridge.send_request`
(lines 164-178): decode the whole body and backfill the id; a decode failure
yields a `-32603` envelope, a non-dict payload raises at the id check and is
caught by the outer `except Exception` (lines 222-233). -/
def plainParse (loads : List Char → Option Json) (body : List Char)
    (rid : Json) : Json :=
  match loads body with
  | none => mkErr (-32603) "Invalid JSON response" rid
  | some (Json.obj kvs) => Json.obj (ensureIdObj rid kvs)
  | some _ => mkErr (-32603) "Unexpected error" rid

/-- Outcome of the one HTTP exchange performed by
`ImprovedMalloyMCPBridge.send_request`: a response body (with its content
type), an `urllib.error.HTTPError`, a `urllib.error.URLError`, or any other
exception (e.g. a socket timeout while reading). -/
inductive BridgeExchange where
  | ok (sse : Bool) (body : List Char)
  | httpError (code : Int)
  | urlError
  | otherError

/-- Embeds `ImprovedMalloyMCPBridge.send_request` (lines 120-233): parse the
response according to its content type, or map each exception class to a
JSON-RPC error envelope carrying the request's id. -/
def sendRequest (loads : List Char → Option Json) (exch : BridgeExchange)
    (req : Json) : Json :=
  let rid := (jsonGet req "id").getD Json.null
  match exch with
  | BridgeExchange.ok sse body =>
      if sse then parseSseResponse loads body rid
      else plainParse loads body rid
  | BridgeExchange.httpError code => mkErr code "HTTP error" rid
  | BridgeExchange.urlError => mkErr (-32603) "Connection error" rid
  | BridgeExchange.otherError => mkErr (-32603) "Unexpected error" rid

/-- Embeds `ImprovedMalloyMCPBridge.process_request` (lines 250-318), returning the
list of stdout lines (as JSON values) written for one input line.  `send`
abstracts `send_request` applied to the (id-normalised) request.
A JSON decode failure emits the `-32700` envelope with `id: null`; a parsed
non-dict raises `AttributeError` at `request.get` and falls into the
`except Exception` handler (`-32603`, `id: null`); a dict without `method`
raises `ValueError` (`-32600`, `id: null`); `notifications/initialized`
emits nothing; otherwise a missing or `null` id is replaced by `1` and the
response returned by `send` is printed. -/
def processRequest (loads : List Char → Option Json) (send : Json → Json)
    (line : List Char) : List Json :=
  match loads line with
  | none => [mkErr (-32700) "Parse error" Json.null]
  | some (Json.obj kvs) =>
      if (dictGet kvs "method").isNone then
        [mkErr (-32600) "Invalid Request" Json.null]
      else if (match dictGet kvs "method" with
               | some (Json.str m) => m == "notifications/initialized"
               | _ => false)
      then []
      else
        let kvs2 :=
          match dictGet kvs "id" with
          | none => dictSet kvs "id" (Json.num 1)
          | some Json.null => dictSet kvs "id" (Json.num 1)
          | some _ => kvs
        [send (Json.obj kvs2)]
  | some _ => [mkErr (-32603) "Internal error" Json.null]

/-- Embeds `ImprovedMalloyMCPBridge.run` (lines 320-346): strip each stdin line,
skip blank lines, process the rest in order; concatenation of all stdout
lines. -/
def runBridge (loads : List Char → Option Json) (send : Json → Json) :
    List (List Char) → List Json
  | [] => []
  | l :: rest =>
      (let s := pyStrip l
       if s.isEmpty then [] else processRequest loads send s)
      ++ runBridge loads send rest


/-! ## Enhanced MCP client (`enhanced_mcp_client.py`) -/

/-- The typed errors of `enhanced_mcp_client.py`: the `MCPError` hierarchy
(lines 31-45).  `mcpError` carries the payload the message was built from;
none of these classes subclass `aiohttp.ClientError` or
`asyncio.TimeoutError`. -/
inductive MCPErr where
  | mcpError (payload : Json)
  | connectionError
  | authError
  | timeoutError

/-- The shared tail of `EnhancedMCPClient._parse_response` (lines 229-242):
raise `MCPError` when the envelope has an `error` member (message from
`error.get('message', error)`), otherwise return `result.get("result", 「」)`. -/
def clientPost (r : Json) : Except MCPErr Json :=
  match jsonGet r "error" with
  | some err => Except.error (MCPErr.mcpError (jsonGetD err "message" err))
  | none => Except.ok (jsonGetD r "result" (Json.obj []))

/-- Embeds `EnhancedMCPClient._parse_response` (lines 218-245): a body starting
with `event: message` is treated as SSE (first `data: ` line is decoded; if
no such line exists the Python function falls through returning `None`,
modelled by `Json.null`); any other body is decoded as plain JSON.  A decode
failure raises `MCPError`. -/
def parseMCPResponse (loads : List Char → Option Json) (text : List Char) :
    Except MCPErr Json :=
  if "event: message".data.isPrefixOf text then
    match (pySplit '\n' text).find? (fun l => "data: ".data.isPrefixOf l) with
    | some l =>
        match loads (l.drop 6) with
        | some r => clientPost r
        | none => Except.error
            (MCPErr.mcpError (Json.str "Failed to parse MCP response"))
    | none => Except.ok Json.null
  else
    match loads text with
    | some r => clientPost r
    | none => Except.error
        (MCPErr.mcpError (Json.str "Failed to parse MCP response"))

/-- Embeds `MCPConfig` (lines 21-29), with its defaults.  Delays are rationals
(the Python floats only enter `min`, `+` and `*` here). -/
structure MCPConfig where
  url : String
  auth_token : Option String := none
  timeout : Int := 30
  max_retries : Nat := 3
  base_delay : ℚ := 1
  max_delay : ℚ := 60

/-- What one attempt of the function wrapped by
`_make_request_with_retry` can do, as seen by the retry loop's
`except (aiohttp.ClientError, asyncio.TimeoutError)` clause: return a
value, raise one of the two caught classes, or raise anything else
(which escapes the loop at once). -/
inductive Outcome where
  | ok (v : Json)
  | aiohttpClientError
  | asyncioTimeout
  | raised (e : MCPErr)

/-- The two exception classes the retry loop catches and stores in
`last_exception`. -/
inductive CaughtExc where
  | client
  | timeout

/-- Lines 136-142: after the loop, `last_exception` is mapped to
`MCPTimeoutError` / `MCPConnectionError` / generic `MCPError`. -/
def convertLast : Option CaughtExc → MCPErr
  | some CaughtExc.timeout => MCPErr.timeoutError
  | some CaughtExc.client => MCPErr.connectionError
  | none => MCPErr.mcpError (Json.str "Request failed")

/-- Line 123-126: `min(base_delay * 2 ** attempt + random.uniform(0, 1),
max_delay)`; the jitter drawn at each attempt is the argument `jit`. -/
def backoffDelay (cfg : MCPConfig) (jit : Nat → ℚ) (attempt : Nat) : ℚ :=
  min (cfg.base_delay * 2 ^ attempt + jit attempt) cfg.max_delay

/-- The body of `_make_request_with_retry`'s `for attempt in
range(max_retries + 1)` loop (lines 109-142).  `out a` is what the wrapped
call does on attempt `a`; the result is the loop's outcome together with
the number of attempts made and the list of back-off sleeps performed.
`fuel` counts the loop iterations that remain (`max_retries + 1 - attempt`
at the top-level call). -/
def retryGo (cfg : MCPConfig) (out : Nat → Outcome) (jit : Nat → ℚ) :
    Nat → Nat → Option CaughtExc → Except MCPErr Json × Nat × List ℚ
  | _, 0, last => (Except.error (convertLast last), 0, [])
  | attempt, fuel + 1, _ =>
      match out attempt with
      | Outcome.ok v => (Except.ok v, 1, [])
      | Outcome.raised e => (Except.error e, 1, [])
      | Outcome.aiohttpClientError =>
          if attempt < cfg.max_retries then
            let r := retryGo cfg out jit (attempt + 1) fuel
                       (some CaughtExc.client)
            (r.1, r.2.1 + 1, backoffDelay cfg jit attempt :: r.2.2)
          else (Except.error (convertLast (some CaughtExc.client)), 1, [])
      | Outcome.asyncioTimeout =>
          if attempt < cfg.max_retries then
            let r := retryGo cfg out jit (attempt + 1) fuel
                       (some CaughtExc.timeout)
            (r.1, r.2.1 + 1, backoffDelay cfg jit attempt :: r.2.2)
          else (Except.error (convertLast (some CaughtExc.timeout)), 1, [])

/-- Embeds `EnhancedMCPClient._make_request_with_retry` (non-streaming path,
lines 100-142). -/
def makeRequestWithRetry (cfg : MCPConfig) (out : Nat → Outcome)
    (jit : Nat → ℚ) : Except MCPErr Json × Nat × List ℚ :=
  retryGo cfg out jit 0 (cfg.max_retries + 1) none

/-- One HTTP exchange as seen by `EnhancedMCPClient._make_request`:
a timeout of an `await` (raises `asyncio.TimeoutError`), an
`aiohttp.ClientError` anywhere in the `try` block, or a response with a
status and a body. -/
inductive HttpExchange where
  | timeout
  | clientError
  | response (status : Nat) (body : List Char)

/-- Embeds `EnhancedMCPClient._make_request` (lines 144-177) as one attempt of the
retry loop: status `401`/`403` raise `MCPAuthError`; other statuses
`>= 400` raise `MCPConnectionError`; an `aiohttp.ClientError` is re-raised
as `MCPConnectionError` (line 176-177) — none of these are caught by the
retry loop; an `asyncio.TimeoutError` propagates unconverted and is caught
there; otherwise the body is parsed. -/
def makeRequest (loads : List Char → Option Json) (exch : HttpExchange) :
    Outcome :=
  match exch with
  | HttpExchange.timeout => Outcome.asyncioTimeout
  | HttpExchange.clientError => Outcome.raised MCPErr.connectionError
  | HttpExchange.response status body =>
      if status = 401 ∨ status = 403 then Outcome.raised MCPErr.authError
      else if 400 ≤ status then Outcome.raised MCPErr.connectionError
      else
        match parseMCPResponse loads body with
        | Except.ok r => Outcome.ok r
        | Except.error e => Outcome.raised e

/-- The `「tool["name"]: tool for tool in result["tools"]」` comprehension of
`EnhancedMCPClient.discover_tools` (lines 258-260): `none` when some
element has no `name` (the raised `KeyError`/`TypeError` is caught by the
surrounding `except Exception`). -/
def buildToolMap (ts : List Json) : Option (List (Json × Json)) :=
  ts.mapM (fun t => (jsonGet t "name").map (fun n => (n, t)))

/-- Embeds `EnhancedMCPClient.discover_tools` (lines 247-271), as a function of the
result of `_make_request_with_retry("tools/list")`.  A raised error is
caught by `except Exception` and yields `「」`; a result that is not a dict
with a `tools` member yields `「」` after a warning; a `tools` member whose
elements lack a `name` raises inside the comprehension, is caught, and
yields `「」`. -/
def discoverTools (res : Except MCPErr Json) :
    Except MCPErr (List (Json × Json)) :=
  match res with
  | Except.error _ => Except.ok []
  | Except.ok r =>
      match r with
      | Json.obj kvs =>
          match dictGet kvs "tools" with
          | some (Json.arr ts) =>
              match buildToolMap ts with
              | some m => Except.ok m
              | none => Except.ok []
          | some _ => Except.ok []
          | none => Except.ok []
      | _ => Except.ok []

/-! ## Circuit breaker (`bot.py` lines 47-73) -/

inductive CBState where
  | closed
  | opened
  | halfOpen
deriving DecidableEq

/-- Embeds `CircuitBreaker.__init__`: `failure_threshold=5`, `timeout=60`,
`failure_count=0`, `last_failure_time=None`, `state="CLOSED"`.  Timestamps
(`time.time()`) are integers here; only differences are compared. -/
structure CircuitBreaker where
  failure_threshold : Nat := 5
  timeout : Int := 60
  failure_count : Nat := 0
  last_failure_time : Option Int := none
  state : CBState := CBState.closed

/-- Embeds `CircuitBreaker.is_open` at time `now`, returning the result and the
updated breaker.  `none` models the `TypeError` Python would raise when
`state == "OPEN"` while `last_failure_time` is still `None` (unreachable:
only `record_failure` opens the breaker, and it always stamps the time). -/
def CircuitBreaker.is_open (now : Int) (cb : CircuitBreaker) :
    Option (Bool × CircuitBreaker) :=
  if cb.state = CBState.opened then
    match cb.last_failure_time with
    | none => none
    | some t =>
        if now - t > cb.timeout then
          some (false, { cb with state := CBState.halfOpen })
        else some (true, cb)
  else some (false, cb)

/-- Embeds `CircuitBreaker.record_success`. -/
def CircuitBreaker.record_success (cb : CircuitBreaker) : CircuitBreaker :=
  { cb with failure_count := 0, state := CBState.closed }

/-- Embeds `CircuitBreaker.record_failure` at time `now`. -/
def CircuitBreaker.record_failure (now : Int) (cb : CircuitBreaker) :
    CircuitBreaker :=
  let fc := cb.failure_count + 1
  { cb with
    failure_count := fc
    last_failure_time := some now
    state := if cb.failure_threshold ≤ fc then CBState.opened else cb.state }

/-! ## Simple MCP client (`simple_mcp_client.py` lines 258-297) -/

/-- A raised Python exception, by its message. -/
structure PyErr where
  msg : String

/-- One element of `result.content` as probed by the `hasattr` chain:
an embedded resource carrying text, a direct text content, or anything
else. -/
inductive ContentItem where
  | resourceItem (text : String)
  | textItem (text : String)
  | otherItem

/-- The value returned by `session.call_tool`: its `content` list and its
`str(result)` rendering used by the fallback branch. -/
structure ToolResult where
  content : List ContentItem
  rendered : String

/-- Lines 272-289: parse the tool result.  JSON text that fails to decode
falls back to a `raw_text` dict; anything without usable content falls back
to `raw_result`. -/
def parseToolResult (loads : List Char → Option Json) (r : ToolResult) :
    Json :=
  match r.content with
  | [] => Json.obj [("raw_result", Json.str r.rendered)]
  | item :: _ =>
      match item with
      | ContentItem.resourceItem t =>
          (loads t.data).getD (Json.obj [("raw_text", Json.str t)])
      | ContentItem.textItem t =>
          (loads t.data).getD (Json.obj [("raw_text", Json.str t)])
      | ContentItem.otherItem => Json.obj [("raw_result", Json.str r.rendered)]

/-- Embeds `SimpleMCPClient.call_tool` (lines 258-297).  `conn` is the outcome of
entering `streamablehttp_client`/`ClientSession` and of
`session.initialize()` — all OUTSIDE the `try`, so a failure there
propagates.  `callRes` is the outcome of `session.call_tool`, whose
exceptions (and any result-parsing exception) the `except Exception`
handler turns into the error dict. -/
def callTool (loads : List Char → Option Json) (toolName : String)
    (args : Json) (conn : Except PyErr Unit)
    (callRes : Except PyErr ToolResult) : Except PyErr Json :=
  match conn with
  | Except.error e => Except.error e
  | Except.ok _ =>
      match callRes with
      | Except.error e =>
          Except.ok (Json.obj [("error", Json.str e.msg),
                               ("tool_name", Json.str toolName),
                               ("arguments", args),
                               ("success", Json.bool false)])
      | Except.ok r => Except.ok (parseToolResult loads r)

/-! ## A model of Python's `json.dumps` (compact, default separators) -/

/-- The decimal digit characters. -/
def digitChar (d : Nat) : Char :=
  if d = 0 then '0' else if d = 1 then '1' else if d = 2 then '2'
  else if d = 3 then '3' else if d = 4 then '4' else if d = 5 then '5'
  else if d = 6 then '6' else if d = 7 then '7' else if d = 8 then '8'
  else '9'

/-- Decimal rendering of a natural number. -/
def natChars (n : Nat) : List Char :=
  if h : n < 10 then [digitChar n]
  else natChars (n / 10) ++ [digitChar (n % 10)]
termination_by n
decreasing_by
  exact Nat.div_lt_self (by omega) (by omega)

/-- Decimal rendering of an integer. -/
def intChars (n : Int) : List Char :=
  if n < 0 then '-' :: natChars n.natAbs else natChars n.toNat

/-- JSON string escaping of one character (the escapes relevant here;
other characters pass through). -/
def escChar (c : Char) : List Char :=
  if c = '"' then ['\\', '"']
  else if c = '\\' then ['\\', '\\']
  else if c = '\n' then ['\\', 'n']
  else if c = '\r' then ['\\', 'r']
  else if c = '\t' then ['\\', 't']
  else [c]

/-- JSON string escaping. -/
def escString (s : List Char) : List Char :=
  s.foldr (fun c acc => escChar c ++ acc) []

mutual

/-- Models `json.dumps` with the default separators `", "` and `": "`. -/
def dumps : Json → List Char
  | Json.null => "null".data
  | Json.bool true => "true".data
  | Json.bool false => "false".data
  | Json.num n => intChars n
  | Json.str s => '"' :: escString s.data ++ ['"']
  | Json.arr xs => '[' :: dumpsArr xs ++ [']']
  | Json.obj kvs => '\x7b' :: dumpsObj kvs ++ ['\x7d']

/-- Comma-separated renderings of array elements. -/
def dumpsArr : List Json → List Char
  | [] => []
  | [x] => dumps x
  | x :: y :: rest => dumps x ++ ',' :: ' ' :: dumpsArr (y :: rest)

/-- Comma-separated `"key": value` renderings of object members. -/
def dumpsObj : List (String × Json) → List Char
  | [] => []
  | [(k, v)] => '"' :: escString k.data ++ '"' :: ':' :: ' ' :: dumps v
  | (k, v) :: e :: rest =>
      ('"' :: escString k.data ++ '"' :: ':' :: ' ' :: dumps v)
        ++ ',' :: ' ' :: dumpsObj (e :: rest)

end

/-- The SSE framing of a serialized payload: an `event: message` line
followed by the `data: ` line carrying it. -/
def sseFrame (s : List Char) : List Char :=
  "event: message\ndata: ".data ++ s

/-! ## Helper lemmas -/

theorem dropWhile_eq_self_of_head (p : Char → Bool) (l : List Char)
    (h : ∀ c, l.head? = some c → p c = false) : l.dropWhile p = l := by
  cases l with
  | nil => rfl
  | cons a t =>
      rw [List.dropWhile_cons, h a rfl]
      simp

theorem pyStrip_eq_self (l : List Char)
    (h1 : ∀ c, l.head? = some c → isPyWs c = false)
    (h2 : ∀ c, l.getLast? = some c → isPyWs c = false) : pyStrip l = l := by
  unfold pyStrip
  rw [dropWhile_eq_self_of_head _ _ h1]
  rw [dropWhile_eq_self_of_head _ _ (fun c hc => h2 c (by
    rwa [← List.head?_reverse]))]
  exact List.reverse_reverse l

theorem pySplit_ne_nil (sep : Char) (l : List Char) : pySplit sep l ≠ [] := by
  induction l with
  | nil => simp [pySplit]
  | cons c rest ih =>
      simp only [pySplit]
      rcases hps : pySplit sep rest with _ | ⟨x, y⟩
      · exact absurd hps ih
      · by_cases hcs : c = sep
        · simp [hcs]
        · simp [hcs]

theorem pySplit_of_no_sep (sep : Char) (l : List Char) (h : sep ∉ l) :
    pySplit sep l = [l] := by
  induction l with
  | nil => rfl
  | cons c rest ih =>
      have hc : c ≠ sep := fun hcs => h (hcs ▸ List.mem_cons_self c rest)
      have hr : sep ∉ rest := fun hm => h (List.mem_cons_of_mem c hm)
      simp only [pySplit, ih hr]
      rw [if_neg hc]

theorem pySplit_append (sep : Char) (a b : List Char) (h : sep ∉ a) :
    pySplit sep (a ++ sep :: b) = a :: pySplit sep b := by
  induction a with
  | nil =>
      simp only [List.nil_append, pySplit]
      rcases hb : pySplit sep b with _ | ⟨x, y⟩
      · exact absurd hb (pySplit_ne_nil sep b)
      · simp
  | cons c rest ih =>
      have hc : c ≠ sep := fun hcs => h (hcs ▸ List.mem_cons_self c rest)
      have hr : sep ∉ rest := fun hm => h (List.mem_cons_of_mem c hm)
      simp only [List.cons_append, pySplit, List.append_eq]
      rw [ih hr]
      simp [hc]

theorem isPrefixOf_append_self (p s : List Char) :
    p.isPrefixOf (p ++ s) = true := by
  induction p with
  | nil => simp [List.isPrefixOf]
  | cons c rest ih => simpa [List.isPrefixOf] using ih

theorem drop_append_len (a b : List Char) : (a ++ b).drop a.length = b := by
  induction a with
  | nil => rfl
  | cons c rest ih => simpa using ih

theorem dictGet_dictSet (kvs : List (String × Json)) (k : String) (v : Json) :
    dictGet (dictSet kvs k v) k = some v := by
  induction kvs with
  | nil => simp [dictGet, dictSet, List.find?]
  | cons p rest ih =>
      obtain ⟨k', v'⟩ := p
      by_cases hk : k' = k
      · subst hk
        simp [dictGet, dictSet, List.find?]
      · have hb : (k' == k) = false := beq_false_of_ne hk
        simp only [dictSet, hb, if_false]
        simpa [dictGet, List.find?, hb] using ih

theorem jsonGet_ensureIdObj (rid : Json) (kvs : List (String × Json))
    (h : dictGet kvs "id" = none ∨ dictGet kvs "id" = some Json.null) :
    jsonGet (Json.obj (ensureIdObj rid kvs)) "id" = some rid := by
  rcases h with h | h <;>
    simp [jsonGet, ensureIdObj, h, dictGet_dictSet]

theorem escChar_no_nl (c : Char) : '\n' ∉ escChar c := by
  unfold escChar
  split_ifs with h1 h2 h3 h4 h5 <;> simp_all
  intro hc
  exact h3 hc.symm

theorem escString_cons (c : Char) (rest : List Char) :
    escString (c :: rest) = escChar c ++ escString rest := rfl

theorem escString_no_nl (s : List Char) : '\n' ∉ escString s := by
  induction s with
  | nil => simp [escString]
  | cons c rest ih =>
      rw [escString_cons]
      intro hm
      rcases List.mem_append.mp hm with h | h
      · exact escChar_no_nl c h
      · exact ih h

theorem digitChar_ne_nl (d : Nat) : digitChar d ≠ '\n' := by
  unfold digitChar
  split_ifs <;> decide

theorem natChars_no_nl (n : Nat) : '\n' ∉ natChars n := by
  induction n using Nat.strong_induction_on with
  | _ n ih =>
    unfold natChars
    split
    · intro hm
      rw [List.mem_singleton] at hm
      exact digitChar_ne_nl n hm.symm
    · intro hm
      rcases List.mem_append.mp hm with h | h
      · exact ih (n / 10) (Nat.div_lt_self (by omega) (by omega)) h
      · rw [List.mem_singleton] at h
        exact digitChar_ne_nl _ h.symm

theorem intChars_no_nl (n : Int) : '\n' ∉ intChars n := by
  unfold intChars
  split
  · intro hm
    rcases List.mem_cons.mp hm with h | h
    · exact absurd h (by decide)
    · exact natChars_no_nl _ h
  · exact natChars_no_nl _

mutual

theorem dumps_no_nl : ∀ j : Json, '\n' ∉ dumps j
  | Json.null => by decide
  | Json.bool true => by decide
  | Json.bool false => by decide
  | Json.num n => intChars_no_nl n
  | Json.str s => by
      simp only [dumps]
      intro hm
      rcases List.mem_cons.mp hm with h | h
      · exact absurd h (by decide)
      · rcases List.mem_append.mp h with h | h
        · exact escString_no_nl s.data h
        · exact absurd h (by decide)
  | Json.arr xs => by
      simp only [dumps]
      intro hm
      rcases List.mem_cons.mp hm with h | h
      · exact absurd h (by decide)
      · rcases List.mem_append.mp h with h | h
        · exact dumpsArr_no_nl xs h
        · exact absurd h (by decide)
  | Json.obj kvs => by
      simp only [dumps]
      intro hm
      rcases List.mem_cons.mp hm with h | h
      · exact absurd h (by decide)
      · rcases List.mem_append.mp h with h | h
        · exact dumpsObj_no_nl kvs h
        · exact absurd h (by decide)

theorem dumpsArr_no_nl : ∀ xs : List Json, '\n' ∉ dumpsArr xs
  | [] => by simp [dumpsArr]
  | [x] => by
      simp only [dumpsArr]
      exact dumps_no_nl x
  | x :: y :: rest => by
      simp only [dumpsArr]
      intro hm
      rcases List.mem_append.mp hm with h | h
      · exact dumps_no_nl x h
      · rcases List.mem_cons.mp h with h | h
        · exact absurd h (by decide)
        · rcases List.mem_cons.mp h with h | h
          · exact absurd h (by decide)
          · exact dumpsArr_no_nl (y :: rest) h

theorem dumpsObj_no_nl : ∀ kvs : List (String × Json), '\n' ∉ dumpsObj kvs
  | [] => by simp [dumpsObj]
  | [(k, v)] => by
      simp only [dumpsObj]
      intro hm
      rcases List.mem_cons.mp hm with h | h
      · exact absurd h (by decide)
      · rcases List.mem_append.mp h with h | h
        · exact escString_no_nl k.data h
        · rcases List.mem_cons.mp h with h | h
          · exact absurd h (by decide)
          · rcases List.mem_cons.mp h with h | h
            · exact absurd h (by decide)
            · rcases List.mem_cons.mp h with h | h
              · exact absurd h (by decide)
              · exact dumps_no_nl v h
  | (k, v) :: e :: rest => by
      simp only [dumpsObj]
      intro hm
      rcases List.mem_append.mp hm with h | h
      · rcases List.mem_cons.mp h with h | h
        · exact absurd h (by decide)
        · rcases List.mem_append.mp h with h | h
          · exact escString_no_nl k.data h
          · rcases List.mem_cons.mp h with h | h
            · exact absurd h (by decide)
            · rcases List.mem_cons.mp h with h | h
              · exact absurd h (by decide)
              · rcases List.mem_cons.mp h with h | h
                · exact absurd h (by decide)
                · exact dumps_no_nl v h
      · rcases List.mem_cons.mp h with h | h
        · exact absurd h (by decide)
        · rcases List.mem_cons.mp h with h | h
          · exact absurd h (by decide)
          · exact dumpsObj_no_nl (e :: rest) h

end

theorem dumps_obj_eq (kvs : List (String × Json)) :
    dumps (Json.obj kvs) = '\x7b' :: dumpsObj kvs ++ ['\x7d'] := by
  simp [dumps]

theorem dumps_obj_head (kvs : List (String × Json)) :
    (dumps (Json.obj kvs)).head? = some '\x7b' := by
  rw [dumps_obj_eq]
  rfl

theorem getLast?_append_ne_nil (a b : List Char) (h : b ≠ []) :
    (a ++ b).getLast? = b.getLast? := by
  rw [← List.head?_reverse, ← List.head?_reverse, List.reverse_append]
  rcases hb : b.reverse with _ | ⟨x, xs⟩
  · exact absurd (by simpa using congrArg List.reverse hb) h
  · simp

theorem dumps_obj_last (kvs : List (String × Json)) :
    (dumps (Json.obj kvs)).getLast? = some '\x7d' := by
  rw [dumps_obj_eq,
    getLast?_append_ne_nil ('\x7b' :: dumpsObj kvs) ['\x7d'] (by simp)]
  rfl

theorem dumps_obj_ne_nil (kvs : List (String × Json)) :
    dumps (Json.obj kvs) ≠ [] := by
  rw [dumps_obj_eq]
  simp

theorem isPrefixOf_cons (a b : Char) (p t : List Char) :
    (a :: p).isPrefixOf (b :: t) = ((a == b) && p.isPrefixOf t) := rfl

theorem sseFrame_decomp (s : List Char) :
    sseFrame s = "event: message".data ++ '\n' :: ("data: ".data ++ s) := by
  show "event: message\ndata: ".data ++ s = _
  have h : "event: message\ndata: ".data
      = "event: message".data ++ '\n' :: "data: ".data := by decide
  rw [h, List.append_assoc]
  rfl

theorem sseFrame_head_cons (s : List Char) :
    sseFrame s = 'e' :: ("vent: message\ndata: ".data ++ s) := by
  show "event: message\ndata: ".data ++ s = _
  have h : "event: message\ndata: ".data
      = 'e' :: "vent: message\ndata: ".data := by decide
  rw [h]
  rfl

theorem pyStrip_sseFrame (s : List Char) (hne : s ≠ [])
    (hl : ∀ c, s.getLast? = some c → isPyWs c = false) :
    pyStrip (sseFrame s) = sseFrame s := by
  apply pyStrip_eq_self
  · intro c hc
    rw [sseFrame_head_cons, List.head?_cons] at hc
    injection hc with hc
    rw [← hc]
    decide
  · intro c hc
    rw [sseFrame, getLast?_append_ne_nil _ _ hne] at hc
    exact hl c hc

theorem lines_sseFrame (s : List Char) (hnl : '\n' ∉ s) :
    pySplit '\n' (sseFrame s)
      = ["event: message".data, "data: ".data ++ s] := by
  rw [sseFrame_decomp, pySplit_append _ _ _ (by decide),
    pySplit_of_no_sep _ _ (by
      intro hm
      rcases List.mem_append.mp hm with h | h
      · exact absurd h (by decide)
      · exact hnl h)]

theorem findData (s : List Char) :
    (["event: message".data, "data: ".data ++ s].find?
      (fun l => "data: ".data.isPrefixOf l)) = some ("data: ".data ++ s) := by
  rw [List.find?_cons_of_neg _ (by decide),
    List.find?_cons_of_pos _ (isPrefixOf_append_self _ _)]

theorem drop6_data (s : List Char) : ("data: ".data ++ s).drop 6 = s := by
  have h : ("data: ".data).length = 6 := by decide
  rw [← h, drop_append_len]

theorem drop6_lit (s : List Char) :
    List.drop 6 (['d', 'a', 't', 'a', ':', ' '] ++ s) = s := drop6_data s

theorem isEmpty_false_of_ne_nil (s : List Char) (h : s ≠ []) :
    s.isEmpty = false := by
  cases s with
  | nil => exact absurd rfl h
  | cons a t => rfl

theorem bridge_sse_eq (loads : List Char → Option Json) (s : List Char)
    (kvs : List (String × Json)) (rid : Json)
    (hne : s ≠ []) (hnl : '\n' ∉ s)
    (hl : ∀ c, s.getLast? = some c → isPyWs c = false)
    (hp : loads s = some (Json.obj kvs)) :
    parseSseResponse loads (sseFrame s) rid = Json.obj (ensureIdObj rid kvs) := by
  have hs := isEmpty_false_of_ne_nil s hne
  simp only [parseSseResponse, pyStrip_sseFrame s hne hl, lines_sseFrame s hnl,
    findData s, Option.map_some', Option.getD_some, drop6_data, drop6_lit, hs,
    Bool.false_eq_true, if_false, hp]

theorem bridge_plain_eq (loads : List Char → Option Json) (s : List Char)
    (kvs : List (String × Json)) (rid : Json)
    (hp : loads s = some (Json.obj kvs)) :
    plainParse loads s rid = Json.obj (ensureIdObj rid kvs) := by
  simp only [plainParse, hp]

theorem client_sse_eq (loads : List Char → Option Json) (s : List Char)
    (kvs : List (String × Json)) (hnl : '\n' ∉ s)
    (hp : loads s = some (Json.obj kvs)) :
    parseMCPResponse loads (sseFrame s) = clientPost (Json.obj kvs) := by
  have hpre : "event: message".data.isPrefixOf (sseFrame s) = true := by
    rw [sseFrame_decomp]
    exact isPrefixOf_append_self _ _
  simp only [parseMCPResponse, hpre, if_true, lines_sseFrame s hnl, findData s,
    drop6_data, drop6_lit, hp]

theorem client_plain_eq (loads : List Char → Option Json) (s : List Char)
    (kvs : List (String × Json))
    (hnp : "event: message".data.isPrefixOf s = false)
    (hp : loads s = some (Json.obj kvs)) :
    parseMCPResponse loads s = clientPost (Json.obj kvs) := by
  simp only [parseMCPResponse, hnp, Bool.false_eq_true, if_false, hp]

theorem event_not_prefixOf_dumps_obj (kvs : List (String × Json)) :
    "event: message".data.isPrefixOf (dumps (Json.obj kvs)) = false := by
  have hd : "event: message".data = 'e' :: "vent: message".data := by decide
  rw [dumps_obj_eq, List.cons_append, hd, isPrefixOf_cons]
  simp

/-! ## Claim C6: SSE-framed and plain-JSON bodies decode identically -/

/-- C6: an SSE-framed response body and a plain-JSON response body carrying
the identical JSON-RPC envelope decode to the same in-memory result: for
every envelope `Json.obj kvs` (with the decoder inverting its
serialization), the bridge parses the SSE framing and the plain
serialization to equal values, and so does the slack-bot client's
`_parse_response`. -/
theorem sse_plain_equivalence (loads : List Char → Option Json)
    (kvs : List (String × Json)) (rid : Json)
    (hp : loads (dumps (Json.obj kvs)) = some (Json.obj kvs)) :
    parseSseResponse loads (sseFrame (dumps (Json.obj kvs))) rid
      = plainParse loads (dumps (Json.obj kvs)) rid
    ∧ parseMCPResponse loads (sseFrame (dumps (Json.obj kvs)))
      = parseMCPResponse loads (dumps (Json.obj kvs)) := by
  have hne := dumps_obj_ne_nil kvs
  have hnl := dumps_no_nl (Json.obj kvs)
  have hl : ∀ c, (dumps (Json.obj kvs)).getLast? = some c →
      isPyWs c = false := by
    intro c hc
    rw [dumps_obj_last] at hc
    injection hc with hc
    rw [← hc]
    decide
  constructor
  · rw [bridge_sse_eq loads _ kvs rid hne hnl hl hp,
      bridge_plain_eq loads _ kvs rid hp]
  · rw [client_sse_eq loads _ kvs hnl hp,
      client_plain_eq loads _ kvs (event_not_prefixOf_dumps_obj kvs) hp]

/-- Witness for the SSE/plain equivalence at a concrete envelope, with the
decoder that inverts exactly its serialization. -/
theorem sse_plain_equivalence_witness :
    parseSseResponse
        (fun t => if t = dumps (Json.obj [("jsonrpc", Json.str "2.0")])
          then some (Json.obj [("jsonrpc", Json.str "2.0")]) else none)
        (sseFrame (dumps (Json.obj [("jsonrpc", Json.str "2.0")])))
        (Json.num 7)
      = plainParse
        (fun t => if t = dumps (Json.obj [("jsonrpc", Json.str "2.0")])
          then some (Json.obj [("jsonrpc", Json.str "2.0")]) else none)
        (dumps (Json.obj [("jsonrpc", Json.str "2.0")])) (Json.num 7)
    ∧ parseMCPResponse
        (fun t => if t = dumps (Json.obj [("jsonrpc", Json.str "2.0")])
          then some (Json.obj [("jsonrpc", Json.str "2.0")]) else none)
        (sseFrame (dumps (Json.obj [("jsonrpc", Json.str "2.0")])))
      = parseMCPResponse
        (fun t => if t = dumps (Json.obj [("jsonrpc", Json.str "2.0")])
          then some (Json.obj [("jsonrpc", Json.str "2.0")]) else none)
        (dumps (Json.obj [("jsonrpc", Json.str "2.0")])) :=
  sse_plain_equivalence _ [("jsonrpc", Json.str "2.0")] (Json.num 7) (by simp)

/-! ## Claim C2: response id equals request id -/

/-- C2 counterexample: the plain-JSON path hands back a response whose
envelope carries the non-null id `999` unchanged, so for the request with
id `1` the caller receives a response whose id differs from the request's
id — the claimed unconditional equality fails. -/
theorem response_id_mismatch_counterexample :
    jsonGet (sendRequest
        (fun t => if t = ['B'] then
            some (Json.obj [("jsonrpc", Json.str "2.0"),
                            ("result", Json.num 5),
                            ("id", Json.num 999)]) else none)
        (BridgeExchange.ok false ['B'])
        (Json.obj [("jsonrpc", Json.str "2.0"), ("id", Json.num 1),
                   ("method", Json.str "tools/list")])) "id"
      = some (Json.num 999)
    ∧ Json.num 999 ≠ Json.num 1 := by
  exact ⟨rfl, by simp⟩

/-- C2 (amended): on both response-parsing paths of the bridge (SSE and
plain JSON), a response envelope that omits `id` or carries `id: null` is
backfilled with the request's id before being handed back; a conflicting
non-null server id, however, is returned unchanged (see the
counterexample), so the id equality holds exactly when the server omits
the id, sends it as null, or echoes it. -/
theorem response_id_backfill (loads : List Char → Option Json)
    (s : List Char) (rkvs kvs : List (String × Json))
    (hne : s ≠ []) (hnl : '\n' ∉ s)
    (hl : ∀ c, s.getLast? = some c → isPyWs c = false)
    (hp : loads s = some (Json.obj kvs))
    (hid : dictGet kvs "id" = none ∨ dictGet kvs "id" = some Json.null) :
    jsonGet (sendRequest loads (BridgeExchange.ok true (sseFrame s))
        (Json.obj rkvs)) "id"
      = some ((dictGet rkvs "id").getD Json.null)
    ∧ jsonGet (sendRequest loads (BridgeExchange.ok false s)
        (Json.obj rkvs)) "id"
      = some ((dictGet rkvs "id").getD Json.null) := by
  constructor
  · show jsonGet (parseSseResponse loads (sseFrame s)
        ((jsonGet (Json.obj rkvs) "id").getD Json.null)) "id" = _
    rw [bridge_sse_eq loads s kvs _ hne hnl hl hp]
    exact jsonGet_ensureIdObj _ _ hid
  · show jsonGet (plainParse loads s
        ((jsonGet (Json.obj rkvs) "id").getD Json.null)) "id" = _
    rw [bridge_plain_eq loads s kvs _ hp]
    exact jsonGet_ensureIdObj _ _ hid

/-- Witness for the id backfill: a one-character body decoding to an
envelope without `id`, for the request with id `7`. -/
theorem response_id_backfill_witness :
    jsonGet (sendRequest
        (fun t => if t = ['R'] then
            some (Json.obj [("jsonrpc", Json.str "2.0"),
                            ("result", Json.num 5)]) else none)
        (BridgeExchange.ok true (sseFrame ['R']))
        (Json.obj [("id", Json.num 7), ("method", Json.str "x")])) "id"
      = some ((dictGet [("id", Json.num 7), ("method", Json.str "x")]
                "id").getD Json.null)
    ∧ jsonGet (sendRequest
        (fun t => if t = ['R'] then
            some (Json.obj [("jsonrpc", Json.str "2.0"),
                            ("result", Json.num 5)]) else none)
        (BridgeExchange.ok false ['R'])
        (Json.obj [("id", Json.num 7), ("method", Json.str "x")])) "id"
      = some ((dictGet [("id", Json.num 7), ("method", Json.str "x")]
                "id").getD Json.null) :=
  response_id_backfill _ ['R']
    [("id", Json.num 7), ("method", Json.str "x")]
    [("jsonrpc", Json.str "2.0"), ("result", Json.num 5)]
    (by simp) (by simp)
    (by
      intro c hc
      injection hc with hc
      rw [← hc]
      decide)
    (by simp)
    (Or.inl rfl)

/-! ## Claim C4: error envelope on forwarding failure -/

/-- C4 counterexample: forwarding fails with HTTP status 500 and the bridge
replies with error code `500` — the `HTTPError` handler uses `e.code`, not
`-32603` as claimed. -/
theorem http_error_code_counterexample :
    errCode (sendRequest (fun _ => none) (BridgeExchange.httpError 500)
        (Json.obj [("jsonrpc", Json.str "2.0"), ("id", Json.num 1),
                   ("method", Json.str "tools/list")]))
      = some (Json.num 500)
    ∧ Json.num 500 ≠ Json.num (-32603) := by
  exact ⟨rfl, by simp⟩

/-- C4 (amended): when the forwarding step fails, the bridge never
propagates the exception but writes exactly one JSON-RPC error envelope
carrying the original request's id; its error code is the HTTP status for
an `HTTPError` (see the counterexample) and `-32603` for connection
failures, timeouts and all other exceptions. -/
theorem forward_failure_error_envelope (loads : List Char → Option Json)
    (rkvs : List (String × Json)) (c : Int) (line : List Char) (idj : Json)
    (hload : loads line = some (Json.obj rkvs))
    (hnotif : (match dictGet rkvs "method" with
               | some (Json.str m) => m == "notifications/initialized"
               | _ => false) = false)
    (hmeth : (dictGet rkvs "method").isNone = false)
    (hid : dictGet rkvs "id" = some idj) (hidn : idj ≠ Json.null) :
    errCode (sendRequest loads (BridgeExchange.httpError c) (Json.obj rkvs))
      = some (Json.num c)
    ∧ jsonGet (sendRequest loads (BridgeExchange.httpError c)
        (Json.obj rkvs)) "id" = some idj
    ∧ errCode (sendRequest loads BridgeExchange.urlError (Json.obj rkvs))
      = some (Json.num (-32603))
    ∧ jsonGet (sendRequest loads BridgeExchange.urlError
        (Json.obj rkvs)) "id" = some idj
    ∧ errCode (sendRequest loads BridgeExchange.otherError (Json.obj rkvs))
      = some (Json.num (-32603))
    ∧ jsonGet (sendRequest loads BridgeExchange.otherError
        (Json.obj rkvs)) "id" = some idj
    ∧ processRequest loads
        (fun r => sendRequest loads (BridgeExchange.httpError c) r) line
      = [sendRequest loads (BridgeExchange.httpError c) (Json.obj rkvs)] := by
  have hgid : (jsonGet (Json.obj rkvs) "id").getD Json.null = idj := by
    show (dictGet rkvs "id").getD Json.null = idj
    rw [hid]
    rfl
  refine ⟨?_, ?_, ?_, ?_, ?_, ?_, ?_⟩
  · show errCode (mkErr c "HTTP error"
        ((jsonGet (Json.obj rkvs) "id").getD Json.null)) = _
    rfl
  · show jsonGet (mkErr c "HTTP error"
        ((jsonGet (Json.obj rkvs) "id").getD Json.null)) "id" = _
    rw [show jsonGet (mkErr c "HTTP error"
        ((jsonGet (Json.obj rkvs) "id").getD Json.null)) "id"
      = some ((jsonGet (Json.obj rkvs) "id").getD Json.null) from rfl, hgid]
  · show errCode (mkErr (-32603) "Connection error"
        ((jsonGet (Json.obj rkvs) "id").getD Json.null)) = _
    rfl
  · show jsonGet (mkErr (-32603) "Connection error"
        ((jsonGet (Json.obj rkvs) "id").getD Json.null)) "id" = _
    rw [show jsonGet (mkErr (-32603) "Connection error"
        ((jsonGet (Json.obj rkvs) "id").getD Json.null)) "id"
      = some ((jsonGet (Json.obj rkvs) "id").getD Json.null) from rfl, hgid]
  · show errCode (mkErr (-32603) "Unexpected error"
        ((jsonGet (Json.obj rkvs) "id").getD Json.null)) = _
    rfl
  · show jsonGet (mkErr (-32603) "Unexpected error"
        ((jsonGet (Json.obj rkvs) "id").getD Json.null)) "id" = _
    rw [show jsonGet (mkErr (-32603) "Unexpected error"
        ((jsonGet (Json.obj rkvs) "id").getD Json.null)) "id"
      = some ((jsonGet (Json.obj rkvs) "id").getD Json.null) from rfl, hgid]
  · simp only [processRequest, hload, hmeth, hnotif, Bool.false_eq_true,
      if_false, hid]

/-- Witness for the forwarding-failure envelope, at HTTP status 500 and a
request line with id 7. -/
theorem forward_failure_error_envelope_witness :
    errCode (sendRequest
        (fun t => if t = ['Q'] then
            some (Json.obj [("id", Json.num 7),
                            ("method", Json.str "tools/list")]) else none)
        (BridgeExchange.httpError 500)
        (Json.obj [("id", Json.num 7), ("method", Json.str "tools/list")]))
      = some (Json.num 500)
    ∧ jsonGet (sendRequest
        (fun t => if t = ['Q'] then
            some (Json.obj [("id", Json.num 7),
                            ("method", Json.str "tools/list")]) else none)
        (BridgeExchange.httpError 500)
        (Json.obj [("id", Json.num 7),
                   ("method", Json.str "tools/list")])) "id"
      = some (Json.num 7)
    ∧ errCode (sendRequest
        (fun t => if t = ['Q'] then
            some (Json.obj [("id", Json.num 7),
                            ("method", Json.str "tools/list")]) else none)
        BridgeExchange.urlError
        (Json.obj [("id", Json.num 7), ("method", Json.str "tools/list")]))
      = some (Json.num (-32603))
    ∧ jsonGet (sendRequest
        (fun t => if t = ['Q'] then
            some (Json.obj [("id", Json.num 7),
                            ("method", Json.str "tools/list")]) else none)
        BridgeExchange.urlError
        (Json.obj [("id", Json.num 7),
                   ("method", Json.str "tools/list")])) "id"
      = some (Json.num 7)
    ∧ errCode (sendRequest
        (fun t => if t = ['Q'] then
            some (Json.obj [("id", Json.num 7),
                            ("method", Json.str "tools/list")]) else none)
        BridgeExchange.otherError
        (Json.obj [("id", Json.num 7), ("method", Json.str "tools/list")]))
      = some (Json.num (-32603))
    ∧ jsonGet (sendRequest
        (fun t => if t = ['Q'] then
            some (Json.obj [("id", Json.num 7),
                            ("method", Json.str "tools/list")]) else none)
        BridgeExchange.otherError
        (Json.obj [("id", Json.num 7),
                   ("method", Json.str "tools/list")])) "id"
      = some (Json.num 7)
    ∧ processRequest
        (fun t => if t = ['Q'] then
            some (Json.obj [("id", Json.num 7),
                            ("method", Json.str "tools/list")]) else none)
        (fun r => sendRequest
          (fun t => if t = ['Q'] then
              some (Json.obj [("id", Json.num 7),
                              ("method", Json.str "tools/list")]) else none)
          (BridgeExchange.httpError 500) r) ['Q']
      = [sendRequest
          (fun t => if t = ['Q'] then
              some (Json.obj [("id", Json.num 7),
                              ("method", Json.str "tools/list")]) else none)
          (BridgeExchange.httpError 500)
          (Json.obj [("id", Json.num 7),
                     ("method", Json.str "tools/list")])] :=
  forward_failure_error_envelope _
    [("id", Json.num 7), ("method", Json.str "tools/list")] 500 ['Q']
    (Json.num 7) (by simp) rfl rfl rfl (by simp)

/-! ## Claim C7: malformed input line handling -/

/-- C7 counterexample: under a decoder that accepts nothing (so the
whitespace-only line `"   "` is certainly not valid JSON), that line
produces zero stdout lines: the loop strips it to blank and skips it
before any JSON parsing, emitting no `-32700` response at all. -/
theorem malformed_blank_line_counterexample :
    runBridge (fun _ => none) (fun r => r) [("   ").data] = [] := rfl

/-- C7 (amended): every input line that is non-blank after stripping and
whose stripped text is not valid JSON produces exactly one stdout line —
the `-32700` parse-error envelope with `id: null` — and the bridge then
continues the loop, processing the remaining lines as usual.  (A line that
strips to blank is skipped with no output, see the counterexample.) -/
theorem malformed_line_parse_error (loads : List Char → Option Json)
    (send : Json → Json) (l : List Char) (rest : List (List Char))
    (hs : pyStrip l ≠ []) (hl : loads (pyStrip l) = none) :
    runBridge loads send (l :: rest)
      = mkErr (-32700) "Parse error" Json.null :: runBridge loads send rest
    ∧ errCode (mkErr (-32700) "Parse error" Json.null)
      = some (Json.num (-32700))
    ∧ jsonGet (mkErr (-32700) "Parse error" Json.null) "id"
      = some Json.null := by
  refine ⟨?_, rfl, rfl⟩
  show (if (pyStrip l).isEmpty then ([] : List Json)
        else processRequest loads send (pyStrip l))
      ++ runBridge loads send rest = _
  rw [isEmpty_false_of_ne_nil _ hs]
  simp only [Bool.false_eq_true, if_false, processRequest, hl,
    List.singleton_append]

/-- Witness for the malformed-line behaviour at the line `oops` with a
decoder that rejects it. -/
theorem malformed_line_parse_error_witness :
    runBridge (fun _ => none) (fun r => r) [("oops").data, ("ok").data]
      = mkErr (-32700) "Parse error" Json.null
          :: runBridge (fun _ => none) (fun r => r) [("ok").data]
    ∧ errCode (mkErr (-32700) "Parse error" Json.null)
      = some (Json.num (-32700))
    ∧ jsonGet (mkErr (-32700) "Parse error" Json.null) "id"
      = some Json.null :=
  malformed_line_parse_error (fun _ => none) (fun r => r) ("oops").data
    [("ok").data] (by decide) rfl

/-! ## Claim C5: tool discovery -/

/-- C5 counterexample: a `tools/list` result without the expected
`「tools: [...]」` shape makes `discover_tools` succeed with an empty map —
no `ProtocolError` is raised (no such class exists in the client) — and an
underlying transport error is likewise caught and converted into an
empty-map success instead of propagating. -/
theorem discover_tools_no_error_counterexample :
    discoverTools (Except.ok (Json.obj [("nottools", Json.null)]))
      = Except.ok []
    ∧ discoverTools (Except.error MCPErr.connectionError) = Except.ok [] :=
  ⟨rfl, rfl⟩

/-- C5 (amended): `discover_tools` builds the name→definition map from the
`tools` array when the `tools/list` result has the expected shape; on a
result of any other shape it succeeds with an empty map, and when the
underlying transport call fails the `except Exception` handler also
returns an empty-map success — discovery never raises. -/
theorem discover_tools_behaviour (kvs kvs2 : List (String × Json))
    (ts : List Json) (m : List (Json × Json)) (e : MCPErr)
    (h1 : dictGet kvs "tools" = some (Json.arr ts))
    (h2 : buildToolMap ts = some m)
    (h3 : dictGet kvs2 "tools" = none) :
    discoverTools (Except.ok (Json.obj kvs)) = Except.ok m
    ∧ discoverTools (Except.ok (Json.obj kvs2)) = Except.ok []
    ∧ discoverTools (Except.error e) = Except.ok [] := by
  refine ⟨?_, ?_, rfl⟩
  · simp only [discoverTools, h1, h2]
  · simp only [discoverTools, h3]

/-- Witness for tool discovery at a one-tool result, a `tools`-less
result, and a connection error. -/
theorem discover_tools_behaviour_witness :
    discoverTools (Except.ok (Json.obj
        [("tools", Json.arr [Json.obj [("name", Json.str "t1")]])]))
      = Except.ok [(Json.str "t1", Json.obj [("name", Json.str "t1")])]
    ∧ discoverTools (Except.ok (Json.obj [("x", Json.null)]))
      = Except.ok []
    ∧ discoverTools (Except.error MCPErr.timeoutError) = Except.ok [] :=
  discover_tools_behaviour
    [("tools", Json.arr [Json.obj [("name", Json.str "t1")]])]
    [("x", Json.null)]
    [Json.obj [("name", Json.str "t1")]]
    [(Json.str "t1", Json.obj [("name", Json.str "t1")])]
    MCPErr.timeoutError rfl rfl rfl

/-! ## Claims C3 and C9: circuit breaker -/

/-- C3: with `failure_threshold = 5` and timeout `T`, five consecutive
`record_failure` calls from the fresh breaker open it (`is_open` is then
true while the timeout has not elapsed); once more than `T` has elapsed
since the last failure, the next `is_open` returns false and moves the
breaker to HALF_OPEN; a following `record_success` resets `failure_count`
to 0 and the state to CLOSED. -/
theorem circuit_breaker_open_halfopen_close
    (T t1 t2 t3 t4 t5 n1 n2 : Int) (h1 : n1 - t5 ≤ T) (h2 : n2 - t5 > T) :
    CircuitBreaker.record_failure t5 (CircuitBreaker.record_failure t4
      (CircuitBreaker.record_failure t3 (CircuitBreaker.record_failure t2
        (CircuitBreaker.record_failure t1
          ({ failure_threshold := 5, timeout := T } : CircuitBreaker)))))
      = ({ failure_threshold := 5, timeout := T, failure_count := 5,
           last_failure_time := some t5,
           state := CBState.opened } : CircuitBreaker)
    ∧ CircuitBreaker.is_open n1
        ({ failure_threshold := 5, timeout := T, failure_count := 5,
           last_failure_time := some t5,
           state := CBState.opened } : CircuitBreaker)
      = some (true,
          ({ failure_threshold := 5, timeout := T, failure_count := 5,
             last_failure_time := some t5,
             state := CBState.opened } : CircuitBreaker))
    ∧ CircuitBreaker.is_open n2
        ({ failure_threshold := 5, timeout := T, failure_count := 5,
           last_failure_time := some t5,
           state := CBState.opened } : CircuitBreaker)
      = some (false,
          ({ failure_threshold := 5, timeout := T, failure_count := 5,
             last_failure_time := some t5,
             state := CBState.halfOpen } : CircuitBreaker))
    ∧ CircuitBreaker.record_success
        ({ failure_threshold := 5, timeout := T, failure_count := 5,
           last_failure_time := some t5,
           state := CBState.halfOpen } : CircuitBreaker)
      = ({ failure_threshold := 5, timeout := T, failure_count := 0,
           last_failure_time := some t5,
           state := CBState.closed } : CircuitBreaker) := by
  refine ⟨rfl, ?_, ?_, rfl⟩
  · show (if T < n1 - t5 then _ else _) = _
    rw [if_neg (not_lt.mpr h1)]
  · show (if T < n2 - t5 then _ else _) = _
    rw [if_pos h2]

/-- Witness for the circuit-breaker scenario with timeout 60, failures at
times 1..5, a query at time 5 and one at time 100. -/
theorem circuit_breaker_open_halfopen_close_witness :
    CircuitBreaker.record_failure 5 (CircuitBreaker.record_failure 4
      (CircuitBreaker.record_failure 3 (CircuitBreaker.record_failure 2
        (CircuitBreaker.record_failure 1
          ({ failure_threshold := 5, timeout := 60 } : CircuitBreaker)))))
      = ({ failure_threshold := 5, timeout := 60, failure_count := 5,
           last_failure_time := some 5,
           state := CBState.opened } : CircuitBreaker)
    ∧ CircuitBreaker.is_open 5
        ({ failure_threshold := 5, timeout := 60, failure_count := 5,
           last_failure_time := some 5,
           state := CBState.opened } : CircuitBreaker)
      = some (true,
          ({ failure_threshold := 5, timeout := 60, failure_count := 5,
             last_failure_time := some 5,
             state := CBState.opened } : CircuitBreaker))
    ∧ CircuitBreaker.is_open 100
        ({ failure_threshold := 5, timeout := 60, failure_count := 5,
           last_failure_time := some 5,
           state := CBState.opened } : CircuitBreaker)
      = some (false,
          ({ failure_threshold := 5, timeout := 60, failure_count := 5,
             last_failure_time := some 5,
             state := CBState.halfOpen } : CircuitBreaker))
    ∧ CircuitBreaker.record_success
        ({ failure_threshold := 5, timeout := 60, failure_count := 5,
           last_failure_time := some 5,
           state := CBState.halfOpen } : CircuitBreaker)
      = ({ failure_threshold := 5, timeout := 60, failure_count := 0,
           last_failure_time := some 5,
           state := CBState.closed } : CircuitBreaker) :=
  circuit_breaker_open_halfopen_close 60 1 2 3 4 5 5 100
    (by decide) (by decide)


/-- C9: while the breaker is HALF_OPEN, `is_open` returns false and leaves
the breaker completely unchanged — so any number of trial calls is
permitted and `is_open` alone never leaves HALF_OPEN. -/
theorem half_open_is_open_false (cb : CircuitBreaker) (now : Int)
    (h : cb.state = CBState.halfOpen) :
    CircuitBreaker.is_open now cb = some (false, cb) := by
  unfold CircuitBreaker.is_open
  rw [h]
  simp

/-- Witness for the HALF_OPEN behaviour at a concrete breaker. -/
theorem half_open_is_open_false_witness :
    CircuitBreaker.is_open 1000
        { failure_threshold := 5, timeout := 60, failure_count := 5,
          last_failure_time := some 0, state := CBState.halfOpen }
      = some (false,
        { failure_threshold := 5, timeout := 60, failure_count := 5,
          last_failure_time := some 0, state := CBState.halfOpen }) :=
  half_open_is_open_false _ 1000 rfl

/-! ## Claims C1 and C8: retry policy -/

/-- Specification of the retry loop from an arbitrary starting attempt:
if every attempt before `max_retries` fails retryably and attempt
`max_retries` succeeds, the loop returns the success value, makes one
attempt per remaining loop iteration, and sleeps the back-off delay
between consecutive attempts. -/
theorem retryGo_spec (cfg : MCPConfig) (out : Nat → Outcome) (jit : Nat → ℚ)
    (v : Json) :
    ∀ f attempt, attempt + f = cfg.max_retries →
    (∀ a, attempt ≤ a → a < cfg.max_retries →
      out a = Outcome.aiohttpClientError ∨ out a = Outcome.asyncioTimeout) →
    out cfg.max_retries = Outcome.ok v →
    ∀ last, retryGo cfg out jit attempt (f + 1) last
      = (Except.ok v, f + 1,
         (List.range' attempt f).map (backoffDelay cfg jit)) := by
  intro f
  induction f with
  | zero =>
      intro attempt hsum hfail hok last
      have ha : attempt = cfg.max_retries := by omega
      subst ha
      simp only [retryGo, hok, List.range', List.map_nil]
  | succ g ih =>
      intro attempt hsum hfail hok last
      have hlt : attempt < cfg.max_retries := by omega
      have hrec := ih (attempt + 1) (by omega)
        (fun a ha1 ha2 => hfail a (by omega) ha2) hok
      have h0 : retryGo cfg out jit attempt (g + 1 + 1) last
          = (match out attempt with
             | Outcome.ok v => (Except.ok v, 1, [])
             | Outcome.raised e => (Except.error e, 1, [])
             | Outcome.aiohttpClientError =>
                 if attempt < cfg.max_retries then
                   ((retryGo cfg out jit (attempt + 1) (g + 1)
                       (some CaughtExc.client)).1,
                    (retryGo cfg out jit (attempt + 1) (g + 1)
                       (some CaughtExc.client)).2.1 + 1,
                    backoffDelay cfg jit attempt ::
                      (retryGo cfg out jit (attempt + 1) (g + 1)
                         (some CaughtExc.client)).2.2)
                 else (Except.error (convertLast (some CaughtExc.client)),
                       1, [])
             | Outcome.asyncioTimeout =>
                 if attempt < cfg.max_retries then
                   ((retryGo cfg out jit (attempt + 1) (g + 1)
                       (some CaughtExc.timeout)).1,
                    (retryGo cfg out jit (attempt + 1) (g + 1)
                       (some CaughtExc.timeout)).2.1 + 1,
                    backoffDelay cfg jit attempt ::
                      (retryGo cfg out jit (attempt + 1) (g + 1)
                         (some CaughtExc.timeout)).2.2)
                 else (Except.error (convertLast (some CaughtExc.timeout)),
                       1, [])) := rfl
      rcases hfail attempt (le_refl attempt) hlt with hr | hr <;>
        · rw [h0, hr]
          simp only [if_pos hlt, hrec, List.range'_succ, List.map_cons]

/-- C1: for every wrapped call that raises a retryable failure (an
`aiohttp.ClientError` or an `asyncio.TimeoutError`) on each of its first
`max_retries` attempts and succeeds on the following attempt, the retry
wrapper returns the success result, makes exactly `max_retries + 1`
attempts (so at most `max_retries + 1`), and sleeps
`min(base_delay * 2^attempt + jitter(attempt), max_delay)` between
consecutive attempts. -/
theorem retry_transient_then_success (cfg : MCPConfig) (out : Nat → Outcome)
    (jit : Nat → ℚ) (v : Json)
    (hfail : ∀ a, a < cfg.max_retries →
      out a = Outcome.aiohttpClientError ∨ out a = Outcome.asyncioTimeout)
    (hok : out cfg.max_retries = Outcome.ok v) :
    makeRequestWithRetry cfg out jit
      = (Except.ok v, cfg.max_retries + 1,
         (List.range cfg.max_retries).map
           (fun a => min (cfg.base_delay * 2 ^ a + jit a) cfg.max_delay)) := by
  show retryGo cfg out jit 0 (cfg.max_retries + 1) none = _
  rw [retryGo_spec cfg out jit v cfg.max_retries 0 (by omega)
    (fun a _ ha2 => hfail a ha2) hok none]
  rw [List.range_eq_range']
  rfl

/-- Witness for the retry scenario of the claim: `max_retries = 2`, the
wrapped call raises `ConnectionError` on attempts 0 and 1 and succeeds on
attempt 2 — three attempts, success returned, two back-off sleeps. -/
theorem retry_transient_then_success_witness :
    makeRequestWithRetry
      { url := "u", max_retries := 2, base_delay := 1, max_delay := 60 }
      (fun a => match a with
        | 0 => Outcome.aiohttpClientError
        | 1 => Outcome.aiohttpClientError
        | _ => Outcome.ok (Json.num 7))
      (fun _ => 0)
      = (Except.ok (Json.num 7),
         ({ url := "u", max_retries := 2, base_delay := 1, max_delay := 60 } : MCPConfig).max_retries + 1,
         (List.range ({ url := "u", max_retries := 2, base_delay := 1, max_delay := 60 } : MCPConfig).max_retries).map
           (fun a => min
             (({ url := "u", max_retries := 2, base_delay := 1, max_delay := 60 } : MCPConfig).base_delay * 2 ^ a
               + (fun _ => (0 : ℚ)) a)
             ({ url := "u", max_retries := 2, base_delay := 1, max_delay := 60 } : MCPConfig).max_delay)) :=
  retry_transient_then_success
    { url := "u", max_retries := 2, base_delay := 1, max_delay := 60 }
    (fun a => match a with
      | 0 => Outcome.aiohttpClientError
      | 1 => Outcome.aiohttpClientError
      | _ => Outcome.ok (Json.num 7))
    (fun _ => 0) (Json.num 7)
    (by
      intro a ha
      interval_cases a
      · exact Or.inl rfl
      · exact Or.inl rfl)
    rfl

/-- C8: a response with HTTP status 401 or 403 makes `_make_request` raise
`MCPAuthError`, which the retry loop's `except` clause does not catch:
exactly one attempt is made, no back-off sleep happens, and the auth error
propagates to the caller, whatever `max_retries` is configured. -/
theorem auth_error_no_retry (cfg : MCPConfig)
    (loads : List Char → Option Json) (jit : Nat → ℚ)
    (exchs : Nat → HttpExchange) (status : Nat) (body : List Char)
    (hs : status = 401 ∨ status = 403)
    (h0 : exchs 0 = HttpExchange.response status body) :
    makeRequestWithRetry cfg (fun a => makeRequest loads (exchs a)) jit
      = (Except.error MCPErr.authError, 1, []) := by
  have hout : makeRequest loads (exchs 0)
      = Outcome.raised MCPErr.authError := by
    rw [h0]
    rcases hs with h | h <;> subst h <;> simp [makeRequest]
  show retryGo cfg (fun a => makeRequest loads (exchs a)) jit 0
      (cfg.max_retries + 1) none = _
  simp only [retryGo, hout]

/-- Witness for the no-retry-on-auth-error behaviour at status 401 with
the default `max_retries = 3`. -/
theorem auth_error_no_retry_witness :
    makeRequestWithRetry { url := "u" }
      (fun a => makeRequest (fun _ => none)
        ((fun _ => HttpExchange.response 401 []) a))
      (fun _ => 0)
      = (Except.error MCPErr.authError, 1, []) :=
  auth_error_no_retry { url := "u" } (fun _ => none) (fun _ => 0)
    (fun _ => HttpExchange.response 401 []) 401 [] (Or.inl rfl) rfl

/-! ## Claim C10: SimpleMCPClient.call_tool -/

/-- C10 counterexample: when entering the HTTP/session context or
`session.initialize()` raises — all of which happen OUTSIDE the `try` —
`call_tool` propagates the exception to its caller instead of returning an
error dict. -/
theorem call_tool_propagates_counterexample :
    callTool (fun _ => none) "t" (Json.obj [])
        (Except.error { msg := "boom" })
        (Except.ok { content := [], rendered := "r" })
      = Except.error { msg := "boom" } := rfl

/-- C10 (amended): once the connection and session initialization have
succeeded, `call_tool` never raises: any exception from the session tool
call (or the result parsing) is caught and the method returns the dict
with the error message, the tool name, the arguments and `success: false`;
a successful call returns the parsed result.  Exceptions raised while
establishing the connection or initializing the session, however,
propagate (see the counterexample). -/
theorem call_tool_catches_tool_errors (loads : List Char → Option Json)
    (toolName : String) (args : Json) (e : PyErr) (r : ToolResult)
    (callRes : Except PyErr ToolResult) :
    callTool loads toolName args (Except.ok ()) (Except.error e)
      = Except.ok (Json.obj [("error", Json.str e.msg),
                             ("tool_name", Json.str toolName),
                             ("arguments", args),
                             ("success", Json.bool false)])
    ∧ callTool loads toolName args (Except.ok ()) (Except.ok r)
      = Except.ok (parseToolResult loads r)
    ∧ (callTool loads toolName args (Except.ok ()) callRes).isOk = true := by
  refine ⟨rfl, rfl, ?_⟩
  cases callRes <;> rfl
